import Mathlib

set_option maxHeartbeats 2000000

/-!
Verification development for the Cold-Snipper-Bot acquisition-and-triage
pipeline.  Python strings are modelled as `List Char`; the SQLite tables are
modelled as append-only lists; external collaborators (the Ollama / xAI
natural-language backends, `hashlib.sha256`, the regex contact extractor,
playwright) are modelled as explicit oracle parameters.  Machine floats used
for wall-clock time are modelled as rationals.
-/

namespace ColdBot

/-! ### Python string primitives -/

/-- Python `needle in hay` substring test. -/
def strContains (hay needle : List Char) : Bool :=
  hay.tails.any fun t => needle.isPrefixOf t

/-- Python `str.lower()`. -/
def pyLower (s : List Char) : List Char :=
  s.map Char.toLower

/-- Python `str.strip()`. -/
def pyStrip (s : List Char) : List Char :=
  ((s.dropWhile Char.isWhitespace).reverse.dropWhile Char.isWhitespace).reverse

/-- Python `text.splitlines()[0]` for nonempty `text` (first line). -/
def firstLine (s : List Char) : List Char :=
  s.takeWhile fun c => c != Char.ofNat 10

/-! ### silos/analysis.py : agent_private_check -/

/-- Result dict of `agent_private_check` (keys `is_private`, `confidence`,
`reason`). -/
structure APCResult where
  is_private : Bool
  confidence : Int
  reason : List Char
deriving DecidableEq, Repr

/-- A parsed JSON object returned by the Ollama fallback call of
`agent_private_check`: each field is the value of `parsed.get(...)` when the
key is present. -/
structure LlmSellerResp where
  is_private : Option Bool
  confidence : Option Int
  reason : Option (List Char)
deriving DecidableEq, Repr

/-- Default `private_keywords` from `agent_private_check` (analysis.py). -/
def defaultPrivateKeywords : List (List Char) :=
  [("private seller").toList, ("owner direct").toList,
   ("for sale by owner").toList, ("no agency").toList, ("no agent").toList]

/-- Default `agent_keywords` from `agent_private_check` (analysis.py). -/
def defaultAgentKeywords : List (List Char) :=
  [("agency").toList, ("broker").toList, ("realtor").toList,
   ("estate agent").toList, ("fees included").toList, ("commission").toList]

/-- The retry loop of `agent_private_check` (`for attempt in range(3)`).
`llm i` is `none` when attempt `i` raises (chat failure or JSON parse
failure) and `some parsed` on success.  Returns the result dict together
with the number of natural-language calls issued. -/
def apcFallback (llm : Nat → Option LlmSellerResp) : Nat → Nat → APCResult × Nat
  | _, 0 => (⟨false, 0, ("LLM classification failed").toList⟩, 0)
  | i, r + 1 =>
    match llm i with
    | some parsed =>
        (⟨parsed.is_private.getD false, parsed.confidence.getD 0,
          parsed.reason.getD (("LLM classification").toList)⟩, 1)
    | none =>
        let rest := apcFallback llm (i + 1) r
        (rest.1, rest.2 + 1)

/-- `agent_private_check(text, config)` (analysis.py lines 25-93), keyword
lists taken from the config (defaults above).  Second component counts the
natural-language fallback calls made. -/
def agent_private_check (private_keywords agent_keywords : List (List Char))
    (llm : Nat → Option LlmSellerResp) (text : List Char) : APCResult × Nat :=
  let text_lower := pyLower text
  if (private_keywords.any fun kw => strContains text_lower kw) &&
      !(agent_keywords.any fun kw => strContains text_lower kw) then
    (⟨true, 9, ("Matched private-seller keywords only").toList⟩, 0)
  else if agent_keywords.any fun kw => strContains text_lower kw then
    (⟨false, 9, ("Matched agent/agency keywords").toList⟩, 0)
  else
    apcFallback llm 0 3

/-! ### silos/scraper.py : Scraper._detect_private_agent -/

/-- `PRIVATE_KWS` (scraper.py line 58). -/
def PRIVATE_KWS : List (List Char) :=
  [("private seller").toList, ("owner direct").toList, ("fsbo").toList,
   ("for sale by owner").toList, ("no agent").toList]

/-- `AGENT_KWS` (scraper.py line 59). -/
def AGENT_KWS : List (List Char) :=
  [("agency").toList, ("broker").toList, ("real estate").toList,
   ("realtor").toList, ("listing agent").toList]

/-- `Scraper._detect_private_agent` (scraper.py lines 148-165).  `llm` is the
outcome of the `_call_json_with_retry` fallback (`none` models the raised
exception).  Second component counts fallback invocations. -/
def detect_private_agent (llm : Option (Bool × List Char)) (text : List Char) :
    (Bool × List Char) × Nat :=
  let t := pyLower text
  let has_private := PRIVATE_KWS.any fun k => strContains t k
  let has_agent := AGENT_KWS.any fun k => strContains t k
  if has_private && !has_agent then ((true, []), 0)
  else if has_agent && !has_private then ((false, []), 0)
  else if has_private && has_agent then
    match llm with
    | some data => ((data.1, data.2), 1)
    | none => ((false, []), 1)
  else ((false, []), 0)

/-! ### silos/logging.py : seen_listing_hash, and silos/analysis.py :
deduplicated -/

/-- The persistent store as seen by `seen_listing_hash`: either the list of
`listing_hash` values in the `lead_logs` table, or an error (unopenable
database / failed query). -/
abbrev LeadLogsStore := Except Unit (List (List Char))

/-- `seen_listing_hash(db_path, listing_hash)` (logging.py lines 19-36): the
`except` clause maps any store failure to `False`. -/
def seen_listing_hash (store : LeadLogsStore) (listing_hash : List Char) : Bool :=
  match store with
  | Except.ok rows => decide (listing_hash ∈ rows)
  | Except.error _ => false

/-- `deduplicated(text, db_path, session_set)` (analysis.py lines 14-22).
`sha256hex` stands for `hashlib.sha256(...).hexdigest()` (external library).
Returns the boolean result, the session set after the call, and the number
of persistent-store lookups performed. -/
def deduplicated (sha256hex : List Char → List Char) (text : List Char)
    (store : LeadLogsStore) (session : List (List Char)) :
    Bool × List (List Char) × Nat :=
  let h := sha256hex text
  if h ∈ session then (true, session, 0)
  else if seen_listing_hash store h then (true, session, 1)
  else (false, h :: session, 1)

/-! ### silos/llm_integration.py : extract_listing_structured -/

/-- A parsed JSON object returned by the backend for
`extract_listing_structured`: field `f` is `some v` when `raw.get("f")`
yields `v` and `none` when the key is missing / null. -/
structure RawStructured where
  title : Option (List Char)
  price : Option (List Char)
  location : Option (List Char)
  description : Option (List Char)
  email : Option (List Char)
  phone : Option (List Char)
  is_private : Option Bool
  agency_name : Option (List Char)
  listing_type : Option (List Char)
  bedrooms : Option Int
  size : Option (List Char)
  confidence : Option Int
deriving DecidableEq, Repr

/-- The `contact` sub-dict built by `extract_listing_structured`. -/
structure StructContact where
  email : List Char
  phone : List Char
deriving DecidableEq, Repr

/-- The dict returned by `extract_listing_structured`. -/
structure StructuredResult where
  title : List Char
  price : List Char
  location : List Char
  description : List Char
  contact : StructContact
  is_private : Bool
  agency_name : List Char
  listing_type : List Char
  bedrooms : Option Int
  size : Option (List Char)
  confidence : Int
  extraction_method : List Char
deriving DecidableEq, Repr

/-- `extract_listing_structured` (llm_integration.py lines 214-247) applied
to an already-parsed backend response `raw`. -/
def extract_listing_structured (raw : RawStructured) : StructuredResult :=
  let email0 := pyStrip (raw.email.getD [])
  let emailOpt : Option (List Char) := if email0 = [] then none else some email0
  let phone0 := pyStrip (raw.phone.getD [])
  let phoneOpt : Option (List Char) := if phone0 = [] then none else some phone0
  let contact : StructContact :=
    if emailOpt = none ∧ phoneOpt = none then ⟨[], []⟩
    else ⟨emailOpt.getD [], phoneOpt.getD []⟩
  { title := pyStrip (raw.title.getD [])
    price := pyStrip (raw.price.getD [])
    location := pyStrip (raw.location.getD [])
    description := (pyStrip (raw.description.getD [])).take 500
    contact := contact
    is_private := raw.is_private.getD false
    agency_name := pyStrip (raw.agency_name.getD [])
    listing_type := pyStrip (raw.listing_type.getD [])
    bedrooms := raw.bedrooms
    size := (let s := pyStrip (raw.size.getD []); if s = [] then none else some s)
    confidence := min 10 (max 0 (raw.confidence.getD 5))
    extraction_method := ("llm").toList }

/-! ### silos/analysis.py : verify_qualifies, compute_priority_score -/

/-- `verify_qualifies(text)` (analysis.py lines 96-101): a keyword stub that
defaults to allow. -/
def verify_qualifies (text : List Char) : Bool :=
  let text_lower := pyLower text
  if [("private seller").toList, ("owner").toList, ("fsbo").toList,
      ("no agent").toList].any (fun kw => strContains text_lower kw) then
    true
  else
    true

/-- Modelled from the spec: `compute_priority_score` is imported by
`cold_bot/main.py` from `silos.analysis` and exercised by
`tests/test_pipeline_phase4_5.py`, but no definition of it appears anywhere
in the source tree.  Spec section 4.6: a deterministic function of the
viability rating, the private-seller flag, the contact-presence flag and the
private-classification confidence, producing a bounded 0-100 score used
purely to order leads. -/
def compute_priority_score (viability_rating : Int) (is_private : Bool)
    (has_contact : Bool) (private_confidence : Int) : Int :=
  let rating := min 10 (max 0 viability_rating)
  let conf := min 10 (max 0 private_confidence)
  min 100 (max 0 (rating * 6 + (if is_private then 15 else 0) +
    (if has_contact then 15 else 0) + conf))

/-! ### cold_bot/main.py : the triage stage (lines 226-370)

The per-listing triage loop body of `main`.  External calls
(`classify_eligible`, the backend response behind
`extract_listing_structured`, `utils.extract_contacts`, `is_airbnb_viable`,
`is_contacted`, `extract_agent_details`, `generate_proposal` / `send_all`)
are oracle parameters; the SQLite tables touched (`leads` via `upsert_lead`,
`lead_logs` via `log_lead`, `agent_logs` via `log_agent_listing`) are
append-only lists, matching their INSERT-only implementations. -/

/-- The `detection` dict built in `main` (lines 244 and 267-271). -/
structure Detection where
  is_private : Bool
  reason : List Char
  confidence : Int
deriving DecidableEq, Repr

/-- Result dict of `is_airbnb_viable` after the `.get` defaulting done in
`main` (lines 280-301). -/
structure ViabilityResult where
  viable : Bool
  rating : Int
  reason : List Char
  factors : List (List Char)
deriving DecidableEq, Repr

/-- Result dict of `extract_agent_details` (analysis.py lines 104-133). -/
structure AgentDetails where
  agency_name : List Char
  title : List Char
  price : List Char
  location : List Char
  url : List Char
  contact : List Char
  reason : List Char
deriving DecidableEq, Repr

/-- A raw listing dict produced by a `Scraper` subclass, restricted to the
keys `main` reads (lines 240-247, 273). -/
structure RawScraped where
  title : List Char
  price : List Char
  location : List Char
  url : List Char
  agency_name : List Char
  contactEmail : List Char
  contactPhone : List Char
  is_private : Bool
deriving DecidableEq, Repr

/-- One entry of the `listings` list in `main` (text, url, optional
`_scraper_raw`). -/
structure ListingIn where
  text : List Char
  url : List Char
  raw : Option RawScraped
deriving DecidableEq, Repr

/-- A row of the `leads` table as written by `upsert_lead`
(email_sender.py lines 145-186, a plain INSERT). -/
structure Lead where
  title : List Char
  price : List Char
  location : List Char
  contact : List Char
  listing_url : List Char
  description : List Char
  airbnb_viable : Bool
  viability_reason : List Char
  rating : Int
  qualification_factors : List (List Char)
  status : List Char
  priority_score : Int
deriving DecidableEq, Repr

/-- The oracles standing for the external collaborators consulted during
triage, each keyed by the listing text. -/
structure Oracles where
  classifyEligible : List Char → Bool
  rawStructured : List Char → RawStructured
  extractContacts : List Char → StructContact
  viabilityOf : List Char → ViabilityResult
  isContacted : List Char → Bool
  extractAgentDetails : List Char → AgentDetails

/-- The configuration values read inside the triage loop. -/
structure BotConfig where
  min_confidence : Int
  airbnb_enabled : Bool
  airbnb_min_rating : Int
deriving DecidableEq, Repr

/-- One orchestrator state: the per-cycle `session_set` plus the persistent
tables (`lead_logs` hashes, `leads` rows, `agent_logs` rows) and the record
of outreach dispatches (`send_all` invocations, keyed by recipient email). -/
structure TriageState where
  session : List (List Char)
  lead_logs : List (List Char)
  leads : List Lead
  agent_logs : List AgentDetails
  sent : List (List Char)
deriving DecidableEq, Repr

/-- The field extraction of `main` lines 240-271: detection dict, contact
email/phone, and the presentation fields. -/
structure Extracted where
  detection : Detection
  email : List Char
  phone : List Char
  title : List Char
  price : List Char
  location : List Char
deriving DecidableEq, Repr

/-- `main` lines 240-271: the scraper-raw branch versus the unified LLM
extraction branch. -/
def extractFields (o : Oracles) (text : List Char) (raw : Option RawScraped) :
    Extracted :=
  match raw with
  | some r =>
      { detection := ⟨r.is_private, r.agency_name,
          if r.is_private then 8 else 2⟩
        email := r.contactEmail
        phone := r.contactPhone
        title := if text = [] then ("Listing").toList
          else if pyStrip r.title ≠ [] then pyStrip r.title
          else (firstLine text).take 120
        price := r.price
        location := r.location }
  | none =>
      let structured := extract_listing_structured (o.rawStructured text)
      let email := structured.contact.email
      let phone := structured.contact.phone
      let ep : List Char × List Char :=
        if structured.confidence < 5 then
          let extracted := o.extractContacts text
          (if extracted.email ≠ [] then extracted.email else email,
           if extracted.phone ≠ [] then extracted.phone else phone)
        else (email, phone)
      { detection := ⟨structured.is_private, structured.agency_name,
          structured.confidence⟩
        email := ep.1
        phone := ep.2
        title := if text = [] then ("Listing").toList
          else if structured.title ≠ [] then structured.title
          else (firstLine text).take 120
        price := structured.price
        location := structured.location }

/-- `listing_url = lst.get("url", "") or (raw.get("url", "") if raw else "")`
(main line 273). -/
def listingUrlOf (lst : ListingIn) : List Char :=
  if lst.url ≠ [] then lst.url
  else (match lst.raw with | some r => r.url | none => [])

/-- The `upsert_lead` row built for one listing (main lines 284-304). -/
def triageLead (o : Oracles) (pf : Int → Bool → Bool → Int → Int)
    (lst : ListingIn) : Lead :=
  let text := lst.text
  let ex := extractFields o text lst.raw
  let contact_value := if ex.email ≠ [] then ex.email else ex.phone
  let v := o.viabilityOf text
  let priority := pf v.rating ex.detection.is_private
    (contact_value ≠ []) ex.detection.confidence
  ⟨ex.title, ex.price, ex.location, contact_value, listingUrlOf lst, text,
   v.viable, v.reason, v.rating, v.factors, ("New").toList, priority⟩

/-- The `agent_logs` row built for a non-private listing (main lines
363-368). -/
def triageAgentEntry (o : Oracles) (lst : ListingIn) : AgentDetails :=
  let text := lst.text
  let ex := extractFields o text lst.raw
  let d0 := o.extractAgentDetails text
  { d0 with
    url := if d0.url ≠ [] then d0.url else listingUrlOf lst
    reason := if ex.detection.reason ≠ [] then ex.detection.reason
      else d0.reason }

/-- The body of `for lst in listings` in `main` (lines 226-370), for one
listing. -/
def triageListing (sha256hex : List Char → List Char) (cfg : BotConfig)
    (o : Oracles) (pf : Int → Bool → Bool → Int → Int)
    (st : TriageState) (lst : ListingIn) : TriageState :=
  let text := lst.text
  let dd := deduplicated sha256hex text (Except.ok st.lead_logs) st.session
  let st1 : TriageState := { st with session := dd.2.1 }
  if dd.1 then st1
  else
    let listing_hash := sha256hex text
    if !(o.classifyEligible text) then st1
    else
      let ex := extractFields o text lst.raw
      let v := o.viabilityOf text
      let st2 : TriageState :=
        { st1 with leads := st1.leads ++ [triageLead o pf lst] }
      let is_priv := ex.detection.is_private &&
        decide (cfg.min_confidence ≤ ex.detection.confidence) &&
        verify_qualifies text
      if is_priv then
        let airbnb_ok := cfg.airbnb_enabled &&
          decide (cfg.airbnb_min_rating ≤ v.rating)
        if !airbnb_ok then
          { st2 with lead_logs := st2.lead_logs ++ [listing_hash] }
        else if ex.email ≠ [] && !(o.isContacted ex.email) then
          { st2 with
            sent := st2.sent ++ [ex.email]
            lead_logs := st2.lead_logs ++ [listing_hash] }
        else st2
      else
        { st2 with agent_logs := st2.agent_logs ++ [triageAgentEntry o lst] }

/-- One cycle of the scanning loop restricted to triage: `session_set` is
reset (`session_set = set()`, main line 134) and every listing runs through
the loop body. -/
def runCycle (sha256hex : List Char → List Char) (cfg : BotConfig)
    (o : Oracles) (pf : Int → Bool → Bool → Int → Int)
    (persist : TriageState) (listings : List ListingIn) : TriageState :=
  listings.foldl (triageListing sha256hex cfg o pf) { persist with session := [] }

/-! ### silos/pipeline.py : RateLimiter (lines 76-99)

Wall-clock seconds are rationals.  `wait_if_needed` holds the mutex for its
whole body, so one call is one atomic transition on the per-domain timestamp
list; sleeping is modelled by the returned admission time `wake`: the two
`time.time()` reads taken after the (possible) sleep both evaluate to
`wake`. -/

/-- `RateLimiter._trim` (pipeline.py lines 84-86): drop timestamps at or
below `now - 60`. -/
def trimTimes (times : List ℚ) (now : ℚ) : List ℚ :=
  times.filter fun t => decide (now - 60 < t)

/-- `RateLimiter.wait_if_needed` (pipeline.py lines 88-99) on the timestamp
list of one domain, entered at clock time `now`; `rpm` is `self.rpm`.
Returns the new timestamp list and the admission time. -/
def wait_if_needed (rpm : Nat) (times : List ℚ) (now : ℚ) : List ℚ × ℚ :=
  let t1 := trimTimes times now
  if rpm ≤ t1.length then
    let sleepUntil := t1.headD 0 + 60 - now
    let wake := if 0 < sleepUntil then t1.headD 0 + 60 else now
    (trimTimes t1 wake ++ [wake], wake)
  else
    (t1 ++ [now], now)

/-- A serialized sequence of `wait_if_needed` calls for one domain (the
mutex serializes concurrent callers): entry clock times `nows`, starting
timestamp list `times`.  Returns the final list and the admission times. -/
def runLimiter (rpm : Nat) (nows : List ℚ) (times : List ℚ) :
    List ℚ × List ℚ :=
  match nows with
  | [] => (times, [])
  | n :: rest =>
      let step := wait_if_needed rpm times n
      let tail := runLimiter rpm rest step.1
      (tail.1, step.2 :: tail.2)

/-! ### silos/pipeline.py : retry_with_backoff (lines 55-73) -/

/-- The `for attempt in range(max_attempts)` loop of `retry_with_backoff`.
`outcome i` is the result of the `(i+1)`-th call of `fn` (`Except.error`
models a raised exception).  Returns the overall outcome (`none` models the
`raise last_exc` with `last_exc is None`, reachable only for
`max_attempts = 0`), the number of calls to `fn`, and the list of sleep
durations in order. -/
def retryGo {E A : Type} (outcome : Nat → Except E A) (backoff : ℚ) :
    Nat → Nat → ℚ → Option (Except E A) × Nat × List ℚ
  | _, 0, _ => (none, 0, [])
  | i, r + 1, delay =>
    match outcome i with
    | Except.ok v => (some (Except.ok v), 1, [])
    | Except.error e =>
        if r = 0 then (some (Except.error e), 1, [])
        else
          let rest := retryGo outcome backoff (i + 1) r (delay * backoff)
          (rest.1, rest.2.1 + 1, delay :: rest.2.2)

/-- `retry_with_backoff(fn, max_attempts, initial_delay, backoff)`
(pipeline.py lines 55-73). -/
def retry_with_backoff {E A : Type} (outcome : Nat → Except E A)
    (maxAttempts : Nat) (initialDelay backoff : ℚ) :
    Option (Except E A) × Nat × List ℚ :=
  retryGo outcome backoff 0 maxAttempts initialDelay

/-! ### cold_bot/main.py : per-URL extraction dispatch

`_scrape_one_url` wraps the scrape in `retry_with_backoff`; its oracle here
is the overall outcome for a URL after that retry budget (`Except.error`
models the exception re-raised after 3 attempts). -/

/-- The parallel dispatch collection loop (main lines 147-156): each
future's failure is caught, logged, and recorded as an empty listing list. -/
def collectParallel (outcomes : List (List Char × Except Unit (List RawScraped))) :
    List (List Char × List RawScraped) :=
  outcomes.map fun p =>
    match p.2 with
    | Except.ok raw_list => (p.1, raw_list)
    | Except.error _ => (p.1, [])

/-- The sequential per-URL extraction (main lines 179-224) for a URL not in
`scraper_results`: with the scraper module enabled and a non-generic source,
a scraper failure (after its retry budget) is caught and the generic
`scroll_and_navigate` + `extract_listings` path is attempted instead; a
failure of that fallback propagates (there is no surrounding handler inside
the cycle loop).  Otherwise the generic path runs directly. -/
def scrapeSequential (useScraperModule nonGenericSource : Bool)
    (scrapeOutcome fallbackOutcome : Except Unit (List RawScraped)) :
    Except Unit (List RawScraped) :=
  if useScraperModule && nonGenericSource then
    match scrapeOutcome with
    | Except.ok raw_list => Except.ok raw_list
    | Except.error _ => fallbackOutcome
  else fallbackOutcome

/-! ## Theorems -/

/-- C1 (amended): for any configured keyword lists, a text matching at least
one private-seller keyword and no agent keyword classifies as private with
confidence 9 (≥ 8) without any natural-language fallback call; a text
matching both a private and an agent keyword is returned by
`agent_private_check` as agent (`is_private = false`, confidence 9) without
invoking the fallback — the fallback runs only when neither class matches —
while the scraper-level `_detect_private_agent` does invoke its fallback
exactly once in the both-present case. -/
theorem C1_theorem (pk ak : List (List Char)) (llm : Nat → Option LlmSellerResp)
    (text : List Char) :
    ((pk.any fun kw => strContains (pyLower text) kw) = true →
      (ak.any fun kw => strContains (pyLower text) kw) = false →
      agent_private_check pk ak llm text =
        (⟨true, 9, ("Matched private-seller keywords only").toList⟩, 0) ∧
      8 ≤ (agent_private_check pk ak llm text).1.confidence)
    ∧ ((pk.any fun kw => strContains (pyLower text) kw) = true →
      (ak.any fun kw => strContains (pyLower text) kw) = true →
      agent_private_check pk ak llm text =
        (⟨false, 9, ("Matched agent/agency keywords").toList⟩, 0))
    ∧ (∀ llm2 : Option (Bool × List Char),
      (PRIVATE_KWS.any fun k => strContains (pyLower text) k) = true →
      (AGENT_KWS.any fun k => strContains (pyLower text) k) = true →
      (detect_private_agent llm2 text).2 = 1) := by
  refine ⟨?_, ?_, ?_⟩
  · intro h1 h2
    constructor
    · simp [agent_private_check, h1, h2]
    · simp [agent_private_check, h1, h2]
  · intro h1 h2
    simp [agent_private_check, h1, h2]
  · intro llm2 h1 h2
    cases llm2 <;> simp [detect_private_agent, h1, h2]

/-- C1 witness: `"for sale by owner direct"` matches only private keywords
and is classified private with confidence 9 and zero fallback calls;
`"for sale by owner agency"` matches both classes and makes
`_detect_private_agent` call its fallback once. -/
theorem C1_witness :
    agent_private_check defaultPrivateKeywords defaultAgentKeywords
      (fun _ => none) (("for sale by owner direct").toList) =
      (⟨true, 9, ("Matched private-seller keywords only").toList⟩, 0) ∧
    (detect_private_agent none (("for sale by owner agency").toList)).2 = 1 := by
  constructor
  · exact ((C1_theorem defaultPrivateKeywords defaultAgentKeywords (fun _ => none)
      (("for sale by owner direct").toList)).1 (by decide) (by decide)).1
  · exact (C1_theorem defaultPrivateKeywords defaultAgentKeywords (fun _ => none)
      (("for sale by owner agency").toList)).2.2 none (by decide) (by decide)

/-- C1 counterexample: `"for sale by owner agency"` contains both a private
keyword (`"for sale by owner"`) and an agent keyword (`"agency"`), yet
`agent_private_check` makes zero natural-language fallback calls and
returns the agent classification — refuting "both present always invokes
the fallback". -/
theorem C1_counterexample :
    ((defaultPrivateKeywords.any fun kw =>
        strContains (pyLower (("for sale by owner agency").toList)) kw) = true)
    ∧ ((defaultAgentKeywords.any fun kw =>
        strContains (pyLower (("for sale by owner agency").toList)) kw) = true)
    ∧ (agent_private_check defaultPrivateKeywords defaultAgentKeywords
        (fun _ => none) (("for sale by owner agency").toList)).2 = 0
    ∧ (agent_private_check defaultPrivateKeywords defaultAgentKeywords
        (fun _ => none) (("for sale by owner agency").toList)).1.is_private
        = false := by
  refine ⟨by decide, by decide, by decide, by decide⟩

/-- C8: if the text's fingerprint is already in the session set, the dedup
check returns true with zero persistent-store lookups and the session set
unchanged; whenever it returns false it has added the fingerprint to the
session set. -/
theorem C8_theorem (sha256hex : List Char → List Char) (store : LeadLogsStore)
    (session : List (List Char)) (text : List Char) :
    (sha256hex text ∈ session →
      deduplicated sha256hex text store session = (true, session, 0))
    ∧ ((deduplicated sha256hex text store session).1 = false →
      sha256hex text ∈ (deduplicated sha256hex text store session).2.1) := by
  constructor
  · intro h
    simp [deduplicated, h]
  · intro hfalse
    by_cases hm : sha256hex text ∈ session
    · simp [deduplicated, hm] at hfalse
    · by_cases hs : seen_listing_hash store (sha256hex text) = true
      · simp [deduplicated, hm, hs] at hfalse
      · simp [deduplicated, hm, hs]

/-- C8 witness: with fingerprint function mapping `"t"` to `"h"`, a session
already holding `"h"` gives a true dedup result with zero store lookups, and
a fresh session gives false with `"h"` added. -/
theorem C8_witness :
    deduplicated (fun _ => ("h").toList) (("t").toList) (Except.ok [])
      [("h").toList] = (true, [("h").toList], 0) ∧
    ("h").toList ∈ (deduplicated (fun _ => ("h").toList) (("t").toList)
      (Except.ok []) []).2.1 := by
  constructor
  · exact (C8_theorem (fun _ => ("h").toList) (Except.ok []) [("h").toList]
      (("t").toList)).1 (by decide)
  · exact (C8_theorem (fun _ => ("h").toList) (Except.ok []) []
      (("t").toList)).2 (by decide)

/-- C9 (amended): the structured-extraction confidence is clamped into
0..10 for every backend response; the seller-type fallback of
`agent_private_check` passes the backend's integer through unclamped, and
when all three fallback attempts fail the default confidence is 0. -/
theorem C9_theorem :
    (∀ raw : RawStructured,
      0 ≤ (extract_listing_structured raw).confidence ∧
      (extract_listing_structured raw).confidence ≤ 10)
    ∧ (∀ (pk ak : List (List Char)) (llm : Nat → Option LlmSellerResp)
        (text : List Char) (resp : LlmSellerResp),
      (pk.any fun kw => strContains (pyLower text) kw) = false →
      (ak.any fun kw => strContains (pyLower text) kw) = false →
      llm 0 = some resp →
      (agent_private_check pk ak llm text).1.confidence =
        resp.confidence.getD 0)
    ∧ (∀ (pk ak : List (List Char)) (llm : Nat → Option LlmSellerResp)
        (text : List Char),
      (pk.any fun kw => strContains (pyLower text) kw) = false →
      (ak.any fun kw => strContains (pyLower text) kw) = false →
      llm 0 = none → llm 1 = none → llm 2 = none →
      (agent_private_check pk ak llm text).1.confidence = 0) := by
  refine ⟨?_, ?_, ?_⟩
  · intro raw
    constructor
    · exact le_min (by norm_num) (le_max_left 0 _)
    · exact min_le_left 10 _
  · intro pk ak llm text resp h1 h2 hllm
    simp [agent_private_check, h1, h2, apcFallback, hllm]
  · intro pk ak llm text h1 h2 g0 g1 g2
    simp [agent_private_check, h1, h2, apcFallback, g0, g1, g2]

/-- C9 witness: a backend reply of confidence 15 on keyword-free text is
passed through as 15 by the seller-type fallback; a structured response
claiming confidence 99 is clamped to a value within 0..10. -/
theorem C9_witness :
    (agent_private_check defaultPrivateKeywords defaultAgentKeywords
      (fun i => if i = 0 then some ⟨some true, some 15, none⟩ else none)
      (("nice flat").toList)).1.confidence = (15 : Int) ∧
    0 ≤ (extract_listing_structured
      ⟨none, none, none, none, none, none, none, none, none, none, none,
        some 99⟩).confidence ∧
    (extract_listing_structured
      ⟨none, none, none, none, none, none, none, none, none, none, none,
        some 99⟩).confidence ≤ 10 := by
  refine ⟨?_, ?_, ?_⟩
  · exact (C9_theorem.2.1 defaultPrivateKeywords defaultAgentKeywords
      (fun i => if i = 0 then some ⟨some true, some 15, none⟩ else none)
      (("nice flat").toList) ⟨some true, some 15, none⟩
      (by decide) (by decide) (by decide))
  · exact (C9_theorem.1 ⟨none, none, none, none, none, none, none, none,
      none, none, none, some 99⟩).1
  · exact (C9_theorem.1 ⟨none, none, none, none, none, none, none, none,
      none, none, none, some 99⟩).2

/-- C9 counterexample: on text containing no keyword, a backend reply with
confidence 15 makes `agent_private_check` return confidence 15, outside
0..10 — refuting "every classification confidence is in 0..10 regardless of
the backend". -/
theorem C9_counterexample :
    (agent_private_check defaultPrivateKeywords defaultAgentKeywords
      (fun i => if i = 0 then some ⟨some true, some 15, none⟩ else none)
      (("nice flat").toList)).1.confidence = (15 : Int) ∧
    ¬((agent_private_check defaultPrivateKeywords defaultAgentKeywords
      (fun i => if i = 0 then some ⟨some true, some 15, none⟩ else none)
      (("nice flat").toList)).1.confidence ≤ 10) := by
  refine ⟨by decide, by decide⟩

/-- C10: a store failure makes `seen_listing_hash` return false rather than
raise, so the dedup check still returns a value: with an unreadable store
the result is exactly "is the fingerprint in the current session set", and
a fingerprint absent from the session set is treated as never seen (and
added to the session set). -/
theorem C10_theorem (sha256hex : List Char → List Char)
    (session : List (List Char)) (text h : List Char) :
    seen_listing_hash (Except.error ()) h = false
    ∧ ((deduplicated sha256hex text (Except.error ()) session).1 =
      decide (sha256hex text ∈ session))
    ∧ (sha256hex text ∉ session →
      deduplicated sha256hex text (Except.error ()) session =
        (false, sha256hex text :: session, 1)) := by
  refine ⟨rfl, ?_, ?_⟩
  · by_cases hm : sha256hex text ∈ session
    · simp [deduplicated, hm]
    · simp [deduplicated, hm, seen_listing_hash]
  · intro hm
    simp [deduplicated, hm, seen_listing_hash]

/-- C10 witness: with an errored store, the fingerprint `"h"` of `"t"` is
reported unseen and is added to the empty session set. -/
theorem C10_witness :
    seen_listing_hash (Except.error ()) (("h").toList) = false ∧
    deduplicated (fun _ => ("h").toList) (("t").toList) (Except.error ()) [] =
      (false, [("h").toList], 1) := by
  constructor
  · exact (C10_theorem (fun _ => ("h").toList) [] (("t").toList)
      (("h").toList)).1
  · exact (C10_theorem (fun _ => ("h").toList) [] (("t").toList)
      (("h").toList)).2.2 (by decide)

/-! ### Priority-score independence -/

/-- Forget a lead's priority score (for stating that the score affects
nothing but itself). -/
def Lead.erasePriority (l : Lead) : Lead :=
  { l with priority_score := 0 }

/-- Forget all priority scores in a state. -/
def TriageState.erasePriority (st : TriageState) : TriageState :=
  { st with leads := st.leads.map Lead.erasePriority }

/-- `verify_qualifies` defaults to allow on every text. -/
theorem verify_qualifies_eq_true (text : List Char) :
    verify_qualifies text = true := by
  unfold verify_qualifies
  simp

/-- C4: the modelled `compute_priority_score` is a pure function of the
viability rating, private flag, contact flag and private confidence whose
value always lies in 0..100; and triage outcomes are independent of the
priority function: two runs with different priority functions differ at
most in the stored priority scores (dedup, eligibility, the agent log, the
outreach queue and the lead rows minus their scores all coincide). -/
theorem C4_theorem :
    (∀ (r : Int) (p c : Bool) (q : Int),
      0 ≤ compute_priority_score r p c q ∧
      compute_priority_score r p c q ≤ 100)
    ∧ (∀ (sha256hex : List Char → List Char) (cfg : BotConfig) (o : Oracles)
        (pf1 pf2 : Int → Bool → Bool → Int → Int) (st : TriageState)
        (l : ListingIn),
      TriageState.erasePriority (triageListing sha256hex cfg o pf1 st l) =
        TriageState.erasePriority (triageListing sha256hex cfg o pf2 st l)) := by
  constructor
  · intro r p c q
    constructor
    · exact le_min (by norm_num) (le_max_left 0 _)
    · exact min_le_left 100 _
  · intro sha256hex cfg o pf1 pf2 st l
    simp only [triageListing]
    split
    · rfl
    · split
      · rfl
      · split
        · split
          · simp [TriageState.erasePriority, Lead.erasePriority, triageLead]
          · split
            · simp [TriageState.erasePriority, Lead.erasePriority, triageLead]
            · simp [TriageState.erasePriority, Lead.erasePriority, triageLead]
        · simp [TriageState.erasePriority, Lead.erasePriority, triageLead]

/-! ### Triage branch lemmas -/

/-- A listing whose fingerprint is already in the session set or in the
persistent `lead_logs` store leaves the state untouched (`continue`). -/
theorem triage_skip (sha256hex : List Char → List Char) (cfg : BotConfig)
    (o : Oracles) (pf : Int → Bool → Bool → Int → Int) (st : TriageState)
    (l : ListingIn)
    (h : sha256hex l.text ∈ st.session ∨ sha256hex l.text ∈ st.lead_logs) :
    triageListing sha256hex cfg o pf st l = st := by
  rcases h with h | h
  · simp [triageListing, deduplicated, h]
  · by_cases hs : sha256hex l.text ∈ st.session
    · simp [triageListing, deduplicated, hs]
    · simp [triageListing, deduplicated, hs, seen_listing_hash, h]

/-- A fresh, ineligible listing only grows the session set. -/
theorem triage_ineligible (sha256hex : List Char → List Char) (cfg : BotConfig)
    (o : Oracles) (pf : Int → Bool → Bool → Int → Int) (st : TriageState)
    (l : ListingIn)
    (hs : sha256hex l.text ∉ st.session)
    (hdb : sha256hex l.text ∉ st.lead_logs)
    (he : o.classifyEligible l.text = false) :
    triageListing sha256hex cfg o pf st l =
      { st with session := sha256hex l.text :: st.session } := by
  simp [triageListing, deduplicated, hs, seen_listing_hash, hdb, he]

/-- A fresh, eligible listing always appends exactly its `upsert_lead` row
and marks its fingerprint in the session set, in every classification
branch. -/
theorem triage_processed (sha256hex : List Char → List Char) (cfg : BotConfig)
    (o : Oracles) (pf : Int → Bool → Bool → Int → Int) (st : TriageState)
    (l : ListingIn)
    (hs : sha256hex l.text ∉ st.session)
    (hdb : sha256hex l.text ∉ st.lead_logs)
    (he : o.classifyEligible l.text = true) :
    (triageListing sha256hex cfg o pf st l).leads =
      st.leads ++ [triageLead o pf l] ∧
    (triageListing sha256hex cfg o pf st l).session =
      sha256hex l.text :: st.session := by
  simp only [triageListing, deduplicated, seen_listing_hash]
  rw [if_neg hs]
  simp only [he, decide_eq_true_eq, Bool.not_true]
  rw [if_neg hdb]
  simp only [Bool.false_eq_true, if_false]
  split
  · split
    · exact ⟨rfl, rfl⟩
    · split
      · exact ⟨rfl, rfl⟩
      · exact ⟨rfl, rfl⟩
  · exact ⟨rfl, rfl⟩

/-- Case analysis used by the per-cycle dedup bound. -/
theorem triage_cases (sha256hex : List Char → List Char) (cfg : BotConfig)
    (o : Oracles) (pf : Int → Bool → Bool → Int → Int) (st : TriageState)
    (l : ListingIn) :
    ((triageListing sha256hex cfg o pf st l).leads = st.leads ∧
      ∀ x ∈ st.session, x ∈ (triageListing sha256hex cfg o pf st l).session)
    ∨ ((triageListing sha256hex cfg o pf st l).leads =
        st.leads ++ [triageLead o pf l] ∧
      (triageListing sha256hex cfg o pf st l).session =
        sha256hex l.text :: st.session ∧
      sha256hex l.text ∉ st.session) := by
  by_cases hs : sha256hex l.text ∈ st.session
  · left
    rw [triage_skip sha256hex cfg o pf st l (Or.inl hs)]
    exact ⟨rfl, fun x hx => hx⟩
  · by_cases hdb : sha256hex l.text ∈ st.lead_logs
    · left
      rw [triage_skip sha256hex cfg o pf st l (Or.inr hdb)]
      exact ⟨rfl, fun x hx => hx⟩
    · by_cases he : o.classifyEligible l.text = true
      · right
        have h := triage_processed sha256hex cfg o pf st l hs hdb he
        exact ⟨h.1, h.2, hs⟩
      · left
        rw [triage_ineligible sha256hex cfg o pf st l hs hdb
          (by simpa using he)]
        exact ⟨rfl, fun x hx => List.mem_cons_of_mem _ hx⟩

/-- C3 (amended): a fresh, eligible listing classified non-private (or
private below the configured confidence floor) is routed to the agent log
and is never queued for outreach; however it is also persisted as a Lead
(the `upsert_lead` call precedes the private/agent branch), and its
fingerprint is not written to `lead_logs`. -/
theorem C3_theorem (sha256hex : List Char → List Char) (cfg : BotConfig)
    (o : Oracles) (pf : Int → Bool → Bool → Int → Int) (st : TriageState)
    (l : ListingIn)
    (hs : sha256hex l.text ∉ st.session)
    (hdb : sha256hex l.text ∉ st.lead_logs)
    (he : o.classifyEligible l.text = true)
    (hnp : ¬((extractFields o l.text l.raw).detection.is_private = true ∧
      cfg.min_confidence ≤ (extractFields o l.text l.raw).detection.confidence)) :
    (triageListing sha256hex cfg o pf st l).agent_logs =
      st.agent_logs ++ [triageAgentEntry o l]
    ∧ (triageListing sha256hex cfg o pf st l).sent = st.sent
    ∧ (triageListing sha256hex cfg o pf st l).leads =
        st.leads ++ [triageLead o pf l]
    ∧ (triageLead o pf l).status = ("New").toList
    ∧ (triageListing sha256hex cfg o pf st l).lead_logs = st.lead_logs := by
  have hpriv : ((extractFields o l.text l.raw).detection.is_private &&
      decide (cfg.min_confidence ≤
        (extractFields o l.text l.raw).detection.confidence) &&
      verify_qualifies l.text) = false := by
    rw [verify_qualifies_eq_true]
    by_cases hp : (extractFields o l.text l.raw).detection.is_private = true
    · have hc : ¬(cfg.min_confidence ≤
          (extractFields o l.text l.raw).detection.confidence) :=
        fun hc => hnp ⟨hp, hc⟩
      simp [hp, hc]
    · simp [Bool.not_eq_true] at hp
      simp [hp]
  refine ⟨?_, ?_, ?_, by simp [triageLead], ?_⟩ <;>
  · simp only [triageListing, deduplicated, seen_listing_hash]
    rw [if_neg hs]
    simp only [he, Bool.not_true, decide_eq_true_eq]
    rw [if_neg hdb]
    simp only [Bool.false_eq_true, if_false, hpriv]
    try rfl

/-! ### Concrete fixtures for closed runs

`fun t => t` stands in for the external `hashlib.sha256(...).hexdigest()`:
every claim about fingerprints is quantified over the hash function, and a
closed run may instantiate it with any concrete function. -/

/-- Oracle assignment for concrete runs: every listing is eligible, the
structured extraction reports an agent listing (`is_private` false,
confidence 9), viability is rated 8, nobody was contacted yet. -/
def agentOracles : Oracles :=
  ⟨fun _ => true,
   fun _ => ⟨none, none, none, none, none, none, some false, none, none,
     none, none, some 9⟩,
   fun _ => ⟨[], []⟩,
   fun _ => ⟨true, 8, [], []⟩,
   fun _ => false,
   fun _ => ⟨[], [], [], [], [], [], []⟩⟩

/-- Config for concrete runs: `min_confidence` 6, Airbnb gate enabled with
minimum rating 6 (the config defaults in `main`). -/
def testConfig : BotConfig := ⟨6, true, 6⟩

/-- A state with empty session, empty tables. -/
def emptyState : TriageState := ⟨[], [], [], [], []⟩

/-- A concrete listing whose text names an agency. -/
def agentListing : ListingIn :=
  ⟨("apartment offered by agency").toList, [], none⟩

/-- C3 witness: the concrete agent listing is appended to the agent log,
nothing is queued for outreach, and (the correction) it is also appended to
the leads table with status `"New"`. -/
theorem C3_witness :
    (triageListing (fun t => t) testConfig agentOracles compute_priority_score
      emptyState agentListing).agent_logs =
      emptyState.agent_logs ++ [triageAgentEntry agentOracles agentListing]
    ∧ (triageListing (fun t => t) testConfig agentOracles compute_priority_score
      emptyState agentListing).sent = emptyState.sent
    ∧ (triageListing (fun t => t) testConfig agentOracles compute_priority_score
      emptyState agentListing).leads =
      emptyState.leads ++
        [triageLead agentOracles compute_priority_score agentListing]
    ∧ (triageLead agentOracles compute_priority_score agentListing).status =
      ("New").toList := by
  have h := C3_theorem (fun t => t) testConfig agentOracles
    compute_priority_score emptyState agentListing
    (by decide) (by decide) (by decide) (by decide)
  exact ⟨h.1, h.2.1, h.2.2.1, h.2.2.2.1⟩

/-- C3 counterexample: the non-private eligible listing is persisted BOTH
to the agent log AND as a Lead (the claim's "instead of being persisted as
a Lead" fails); no outreach is queued. -/
theorem C3_counterexample :
    (triageListing (fun t => t) testConfig agentOracles compute_priority_score
      emptyState agentListing).leads.length = 1
    ∧ (triageListing (fun t => t) testConfig agentOracles compute_priority_score
      emptyState agentListing).agent_logs.length = 1
    ∧ (triageListing (fun t => t) testConfig agentOracles compute_priority_score
      emptyState agentListing).sent = [] := by
  refine ⟨by decide, by decide, by decide⟩

/-! ### Per-cycle dedup bound (C2) -/

/-- Number of persisted leads whose description hashes to fingerprint `F`. -/
def leadFpCount (sha256hex : List Char → List Char) (F : List Char)
    (st : TriageState) : Nat :=
  st.leads.countP fun ld => decide (sha256hex ld.description = F)

/-- 1 while fingerprint `F` is still absent from the session set. -/
def fpBudget (F : List Char) (st : TriageState) : Nat :=
  if F ∈ st.session then 0 else 1

/-- One triage step cannot increase `leadFpCount + fpBudget`. -/
theorem triage_count_step (sha256hex : List Char → List Char) (cfg : BotConfig)
    (o : Oracles) (pf : Int → Bool → Bool → Int → Int) (st : TriageState)
    (l : ListingIn) (F : List Char) :
    leadFpCount sha256hex F (triageListing sha256hex cfg o pf st l) +
      fpBudget F (triageListing sha256hex cfg o pf st l) ≤
    leadFpCount sha256hex F st + fpBudget F st := by
  rcases triage_cases sha256hex cfg o pf st l with ⟨hl, hsub⟩ | ⟨hl, hsess, hnew⟩
  · have hc : leadFpCount sha256hex F (triageListing sha256hex cfg o pf st l) =
        leadFpCount sha256hex F st := by
      unfold leadFpCount; rw [hl]
    have hb : fpBudget F (triageListing sha256hex cfg o pf st l) ≤
        fpBudget F st := by
      unfold fpBudget
      by_cases hF : F ∈ st.session
      · simp [hF, hsub F hF]
      · split <;> omega
    omega
  · have hc : leadFpCount sha256hex F (triageListing sha256hex cfg o pf st l) =
        leadFpCount sha256hex F st +
          (if sha256hex l.text = F then 1 else 0) := by
      unfold leadFpCount
      rw [hl, List.countP_append]
      simp [triageLead, List.countP_cons, decide_eq_true_eq]
    by_cases hF : sha256hex l.text = F
    · have hb0 : fpBudget F (triageListing sha256hex cfg o pf st l) = 0 := by
        unfold fpBudget
        rw [hsess, hF]
        simp
      have hb1 : fpBudget F st = 1 := by
        unfold fpBudget
        rw [← hF]
        simp [hnew]
      rw [if_pos hF] at hc
      omega
    · have hb : fpBudget F (triageListing sha256hex cfg o pf st l) =
          fpBudget F st := by
        unfold fpBudget
        rw [hsess]
        by_cases hFs : F ∈ st.session
        · simp [hFs, List.mem_cons_of_mem]
        · have : F ∉ sha256hex l.text :: st.session := by
            intro hmem
            rcases List.mem_cons.mp hmem with h | h
            · exact hF h.symm
            · exact hFs h
          simp [hFs, this]
      rw [if_neg hF] at hc
      omega

/-- Folding triage over a listing batch cannot increase
`leadFpCount + fpBudget`. -/
theorem foldl_count_le (sha256hex : List Char → List Char) (cfg : BotConfig)
    (o : Oracles) (pf : Int → Bool → Bool → Int → Int) (F : List Char) :
    ∀ (listings : List ListingIn) (st : TriageState),
      leadFpCount sha256hex F
          (listings.foldl (triageListing sha256hex cfg o pf) st) +
        fpBudget F (listings.foldl (triageListing sha256hex cfg o pf) st) ≤
      leadFpCount sha256hex F st + fpBudget F st := by
  intro listings
  induction listings with
  | nil => intro st; simp [List.foldl]
  | cons l rest ih =>
      intro st
      calc leadFpCount sha256hex F
            ((l :: rest).foldl (triageListing sha256hex cfg o pf) st) +
          fpBudget F ((l :: rest).foldl (triageListing sha256hex cfg o pf) st)
          = leadFpCount sha256hex F
              (rest.foldl (triageListing sha256hex cfg o pf)
                (triageListing sha256hex cfg o pf st l)) +
            fpBudget F (rest.foldl (triageListing sha256hex cfg o pf)
              (triageListing sha256hex cfg o pf st l)) := by
            simp [List.foldl]
        _ ≤ leadFpCount sha256hex F (triageListing sha256hex cfg o pf st l) +
            fpBudget F (triageListing sha256hex cfg o pf st l) :=
            ih (triageListing sha256hex cfg o pf st l)
        _ ≤ leadFpCount sha256hex F st + fpBudget F st :=
            triage_count_step sha256hex cfg o pf st l F

/-- C2 (amended): within a single cycle a fingerprint is triaged at most
once — one cycle adds at most one lead per fingerprint — and a fingerprint
that has been recorded in the persistent `lead_logs` store is always
detected as a duplicate and skipped; but only the private-seller `log_lead`
paths write to `lead_logs`, so listings triaged down other paths are not
deduplicated across cycles. -/
theorem C2_theorem (sha256hex : List Char → List Char) (cfg : BotConfig)
    (o : Oracles) (pf : Int → Bool → Bool → Int → Int)
    (persist : TriageState) (listings : List ListingIn) (F : List Char) :
    leadFpCount sha256hex F (runCycle sha256hex cfg o pf persist listings) ≤
      leadFpCount sha256hex F persist + 1
    ∧ (∀ (st : TriageState) (l : ListingIn),
        sha256hex l.text ∈ st.lead_logs →
        triageListing sha256hex cfg o pf st l = st) := by
  constructor
  · have h := foldl_count_le sha256hex cfg o pf F listings
      { persist with session := [] }
    have hb : fpBudget F { persist with session := ([] : List (List Char)) } = 1 := by
      simp [fpBudget]
    have hc : leadFpCount sha256hex F
        { persist with session := ([] : List (List Char)) } =
        leadFpCount sha256hex F persist := rfl
    unfold runCycle
    omega
  · intro st l h
    exact triage_skip sha256hex cfg o pf st l (Or.inr h)

/-- C2 witness: a state whose `lead_logs` already holds the listing's
fingerprint is left untouched; the one-cycle bound holds on a concrete
cycle. -/
theorem C2_witness :
    triageListing (fun _ => ("h").toList) testConfig agentOracles
      compute_priority_score ⟨[], [("h").toList], [], [], []⟩ agentListing =
      ⟨[], [("h").toList], [], [], []⟩
    ∧ leadFpCount (fun t => t) (("x").toList)
        (runCycle (fun t => t) testConfig agentOracles compute_priority_score
          emptyState [agentListing]) ≤
      leadFpCount (fun t => t) (("x").toList) emptyState + 1 := by
  constructor
  · exact (C2_theorem (fun _ => ("h").toList) testConfig agentOracles
      compute_priority_score ⟨[], [("h").toList], [], [], []⟩ [] (("x").toList)).2
      ⟨[], [("h").toList], [], [], []⟩ agentListing (by decide)
  · exact (C2_theorem (fun t => t) testConfig agentOracles
      compute_priority_score emptyState [agentListing] (("x").toList)).1

/-- C2 counterexample: the same non-private listing is triaged again in a
second cycle — both the leads table and the agent log grow to two entries —
because nothing wrote its fingerprint to `lead_logs`; the claim's
"at most once for the lifetime of the store" fails. -/
theorem C2_counterexample :
    (runCycle (fun t => t) testConfig agentOracles compute_priority_score
      (runCycle (fun t => t) testConfig agentOracles compute_priority_score
        emptyState [agentListing]) [agentListing]).leads.length = 2
    ∧ (runCycle (fun t => t) testConfig agentOracles compute_priority_score
      (runCycle (fun t => t) testConfig agentOracles compute_priority_score
        emptyState [agentListing]) [agentListing]).agent_logs.length = 2
    ∧ (runCycle (fun t => t) testConfig agentOracles compute_priority_score
      (runCycle (fun t => t) testConfig agentOracles compute_priority_score
        emptyState [agentListing]) [agentListing]).lead_logs = [] := by
  refine ⟨by decide, by decide, by decide⟩

/-- C5 (amended): in the parallel dispatch path a URL whose extraction
fails after its retry budget is caught and contributes an empty listing
list, and every URL still yields an entry (the cycle continues over all of
them); in the sequential path a scraper-module failure is caught and logged
but then the generic fallback extractor runs instead — its result (not an
empty list) is used, and a failure of that fallback propagates out of the
cycle loop. -/
theorem C5_theorem (outcomes : List (List Char × Except Unit (List RawScraped)))
    (u : List Char) (e : Unit)
    (fb : Except Unit (List RawScraped)) (raw_list : List RawScraped) :
    ((u, Except.error e) ∈ outcomes →
      (u, ([] : List RawScraped)) ∈ collectParallel outcomes)
    ∧ (collectParallel outcomes).length = outcomes.length
    ∧ scrapeSequential true true (Except.error e) fb = fb
    ∧ scrapeSequential true true (Except.ok raw_list) fb =
        Except.ok raw_list := by
  refine ⟨?_, ?_, rfl, rfl⟩
  · intro h
    exact List.mem_map.mpr ⟨(u, Except.error e), h, rfl⟩
  · simp [collectParallel]

/-- C5 witness: a concrete two-URL parallel batch where the second URL
failed yields the first URL's listings and an empty list for the second;
sequentially, a scraper failure falls through to the fallback outcome. -/
theorem C5_witness :
    (("b").toList, ([] : List RawScraped)) ∈
      collectParallel
        [(("a").toList, Except.ok [⟨[], [], [], [], [], [], [], false⟩]),
         (("b").toList, Except.error ())]
    ∧ scrapeSequential true true (Except.error ()) (Except.error ()) =
        Except.error () := by
  constructor
  · exact (C5_theorem
      [(("a").toList, Except.ok [⟨[], [], [], [], [], [], [], false⟩]),
       (("b").toList, Except.error ())]
      (("b").toList) () (Except.error ()) []).1 (by simp)
  · exact (C5_theorem [] (("b").toList) () (Except.error ()) []).2.2.1

/-- C5 counterexample: in the sequential path, a URL whose scraper-module
extraction fails after its retry budget does NOT contribute zero listings —
the generic fallback result is used instead — and when that fallback also
raises, the exception propagates out of the cycle loop, refuting "the
failure ... contributes zero listings ... the exception never propagates". -/
theorem C5_counterexample :
    scrapeSequential true true (Except.error ())
      (Except.ok [⟨[], [], [], [], [], [], [], false⟩]) =
      Except.ok [⟨[], [], [], [], [], [], [], false⟩]
    ∧ scrapeSequential true true (Except.error ()) (Except.error ()) =
      Except.error () := by
  exact ⟨rfl, rfl⟩

/-! ### retry_with_backoff lemmas -/

/-- Unrolling `retryGo` when the first success is attempt `k` (0-based). -/
theorem retryGo_success {E A : Type} (outcome : Nat → Except E A)
    (backoff : ℚ) (v : A) :
    ∀ (k i r : Nat) (delay : ℚ), k < r →
      outcome (i + k) = Except.ok v →
      (∀ j, j < k → ∃ e, outcome (i + j) = Except.error e) →
      retryGo outcome backoff i r delay =
        (some (Except.ok v), k + 1,
         (List.range k).map fun t => delay * backoff ^ t) := by
  intro k
  induction k with
  | zero =>
      intro i r delay hk hok _
      match r, hk with
      | r + 1, _ =>
        simp only [retryGo]
        rw [show i + 0 = i from rfl] at hok
        rw [hok]
        simp
  | succ k ih =>
      intro i r delay hk hok hfail
      match r, hk with
      | r + 1, hk =>
        obtain ⟨e, he⟩ := hfail 0 (Nat.succ_pos k)
        rw [show i + 0 = i from rfl] at he
        have hr : r ≠ 0 := by omega
        simp only [retryGo, he, hr, if_false]
        have hrec := ih (i + 1) r (delay * backoff) (by omega)
          (by rw [show i + 1 + k = i + (k + 1) from by omega]; exact hok)
          (fun j hj => by
            obtain ⟨e2, he2⟩ := hfail (j + 1) (by omega)
            exact ⟨e2, by rw [show i + 1 + j = i + (j + 1) from by omega]; exact he2⟩)
        rw [hrec, List.range_succ_eq_map, List.map_cons, List.map_map]
        simp only [Prod.mk.injEq, List.cons.injEq]
        refine ⟨by trivial, by trivial, by simp, ?_⟩
        apply List.map_congr_left
        intro t _
        simp only [Function.comp_apply, pow_succ]
        ring

/-- Unrolling `retryGo` when every attempt fails. -/
theorem retryGo_all_fail {E A : Type} (outcome : Nat → Except E A)
    (backoff : ℚ) (es : Nat → E) :
    ∀ (r i : Nat) (delay : ℚ), 1 ≤ r →
      (∀ j, j < r → outcome (i + j) = Except.error (es (i + j))) →
      retryGo outcome backoff i r delay =
        (some (Except.error (es (i + r - 1))), r,
         (List.range (r - 1)).map fun t => delay * backoff ^ t) := by
  intro r
  induction r with
  | zero => intro i delay h; omega
  | succ r ih =>
      intro i delay _ hfail
      have he := hfail 0 (Nat.succ_pos r)
      rw [show i + 0 = i from rfl] at he
      by_cases hr : r = 0
      · subst hr
        simp [retryGo, he]
      · simp only [retryGo, he, hr, if_false]
        have hrec := ih (i + 1) (delay * backoff) (by omega)
          (fun j hj => by
            have := hfail (j + 1) (by omega)
            rw [show i + (j + 1) = i + 1 + j from by omega] at this
            exact this)
        rw [hrec]
        obtain ⟨q, rfl⟩ : ∃ q, r = q + 1 := ⟨r - 1, by omega⟩
        rw [show q + 1 + 1 - 1 = q + 1 from rfl, show q + 1 - 1 = q from rfl,
          List.range_succ_eq_map, List.map_cons, List.map_map]
        simp only [Prod.mk.injEq, List.cons.injEq]
        refine ⟨by congr 3; omega, by trivial, by simp, ?_⟩
        apply List.map_congr_left
        intro t _
        simp only [Function.comp_apply, pow_succ]
        ring

/-- Sum of a geometric sleep schedule factors out the initial delay. -/
theorem sleep_schedule_sum (d backoff : ℚ) (n : Nat) :
    ((List.range n).map fun t => d * backoff ^ t).sum =
      d * ((List.range n).map fun t => backoff ^ t).sum := by
  induction n with
  | zero => simp
  | succ n ih =>
      rw [List.range_succ, List.map_append, List.map_append,
        List.sum_append, List.sum_append, ih]
      simp [mul_add]

/-- C7: if `fn` first succeeds on attempt `k` (0-based), the success value
is returned after exactly `k + 1` calls, with sleeps
`initial_delay * backoff ^ 0 .. backoff ^ (k-1)` between attempts; if every
attempt fails, the last-seen error is re-raised after exactly
`max_attempts` calls, with a sleep of `initial_delay * backoff ^ i` between
the `(i+1)`-th and `(i+2)`-th attempts, and the total sleep equals
`initial_delay` times the geometric sum over the failed attempts. -/
theorem C7_theorem {E A : Type} (outcome : Nat → Except E A)
    (maxAttempts : Nat) (d backoff : ℚ) :
    (∀ (k : Nat) (v : A), k < maxAttempts →
      outcome k = Except.ok v →
      (∀ j, j < k → ∃ e, outcome j = Except.error e) →
      retry_with_backoff outcome maxAttempts d backoff =
        (some (Except.ok v), k + 1,
         (List.range k).map fun t => d * backoff ^ t))
    ∧ (∀ es : Nat → E, 1 ≤ maxAttempts →
      (∀ j, j < maxAttempts → outcome j = Except.error (es j)) →
      retry_with_backoff outcome maxAttempts d backoff =
        (some (Except.error (es (maxAttempts - 1))), maxAttempts,
         (List.range (maxAttempts - 1)).map fun t => d * backoff ^ t)
      ∧ ((List.range (maxAttempts - 1)).map fun t => d * backoff ^ t).sum =
          d * ((List.range (maxAttempts - 1)).map fun t => backoff ^ t).sum) := by
  constructor
  · intro k v hk hok hfail
    unfold retry_with_backoff
    exact retryGo_success outcome backoff v k 0 maxAttempts d hk
      (by simpa using hok) (fun j hj => by simpa using hfail j hj)
  · intro es hmax hfail
    constructor
    · unfold retry_with_backoff
      have h := retryGo_all_fail outcome backoff es maxAttempts 0 d hmax
        (fun j hj => by simpa using hfail j hj)
      simpa using h
    · exact sleep_schedule_sum d backoff (maxAttempts - 1)

/-- C7 witness: an operation failing twice then succeeding returns the
success after 3 of 4 allowed calls with sleeps `1, 2`; an operation that
always fails with error `j` on attempt `j` raises error 2 after exactly 3
calls, with total sleep `1 * (2 ^ 0 + 2 ^ 1)`. -/
theorem C7_witness :
    retry_with_backoff
        (fun j => if j < 2 then Except.error j else Except.ok 7) 4 1 2 =
      (some (Except.ok 7), 3, (List.range 2).map fun t => (1 : ℚ) * 2 ^ t)
    ∧ retry_with_backoff (fun j => (Except.error j : Except Nat Nat)) 3 1 2 =
      (some (Except.error 2), 3, (List.range 2).map fun t => (1 : ℚ) * 2 ^ t)
    ∧ ((List.range 2).map fun t => (1 : ℚ) * 2 ^ t).sum =
      1 * ((List.range 2).map fun t => (2 : ℚ) ^ t).sum := by
  refine ⟨?_, ?_, ?_⟩
  · exact (C7_theorem (fun j => if j < 2 then Except.error j else Except.ok 7)
      4 1 2).1 2 7 (by norm_num) (by norm_num)
      (fun j hj => ⟨j, by simp [hj]⟩)
  · exact ((C7_theorem (fun j => (Except.error j : Except Nat Nat)) 3 1 2).2
      (fun j => j) (by norm_num) (fun j _ => rfl)).1
  · exact ((C7_theorem (fun j => (Except.error j : Except Nat Nat)) 3 1 2).2
      (fun j => j) (by norm_num) (fun j _ => rfl)).2

/-! ### RateLimiter lemmas -/

/-- Trimming removes nothing when every timestamp is inside the window. -/
theorem trimTimes_eq_self (times : List ℚ) (now : ℚ)
    (h : ∀ t ∈ times, now - 60 < t) : trimTimes times now = times := by
  unfold trimTimes
  rw [List.filter_eq_self]
  intro t ht
  simpa using h t ht

/-- Re-trimming at a later instant subsumes an earlier trim. -/
theorem trimTimes_trimTimes (s : List ℚ) (a b : ℚ) (hab : a ≤ b) :
    trimTimes (trimTimes s a) b = trimTimes s b := by
  unfold trimTimes
  rw [List.filter_filter]
  apply List.filter_congr
  intro t _
  by_cases h1 : b - 60 < t
  · have h2 : a - 60 < t := by linarith
    simp [h1, h2]
  · simp [h1]

/-- Every `wait_if_needed` call leaves the domain's list equal to the old
list with expired stamps evicted plus the admission time appended (the
whole step happens under the limiter's mutex, i.e. as one transition). -/
theorem wait_if_needed_shape (rpm : Nat) (s : List ℚ) (now : ℚ) :
    (wait_if_needed rpm s now).1 =
      trimTimes s (wait_if_needed rpm s now).2 ++
        [(wait_if_needed rpm s now).2] := by
  unfold wait_if_needed
  by_cases h : rpm ≤ (trimTimes s now).length
  · simp only [h, if_true]
    by_cases hs : 0 < (trimTimes s now).headD 0 + 60 - now
    · simp only [hs, if_true]
      congr 1
      exact trimTimes_trimTimes s now _ (by linarith)
    · simp only [hs, if_false]
      congr 1
      exact trimTimes_trimTimes s now now le_rfl
  · simp [h]

/-- While a domain is under budget and all timestamps stay inside one
60-second window, every call admits immediately at its entry time. -/
theorem runLimiter_under_budget (rpm : Nat) :
    ∀ (nows s : List ℚ),
      s.length + nows.length ≤ rpm →
      (∀ t1 ∈ s ++ nows, ∀ t2 ∈ s ++ nows, t2 - 60 < t1) →
      runLimiter rpm nows s = (s ++ nows, nows) := by
  intro nows
  induction nows with
  | nil => intro s _ _; simp [runLimiter]
  | cons n rest ih =>
      intro s hlen hwin
      have htrim : trimTimes s n = s := by
        apply trimTimes_eq_self
        intro t ht
        exact hwin t (List.mem_append_left _ ht) n
          (List.mem_append_right _ (List.mem_cons_self n rest))
      have hlt : ¬(rpm ≤ s.length) := by
        simp only [List.length_cons] at hlen
        omega
      have hset : ∀ x : ℚ, x ∈ (s ++ [n]) ++ rest ↔ x ∈ s ++ n :: rest := by
        intro x
        simp [List.mem_append, List.mem_cons]
      have hrec := ih (s ++ [n])
        (by simp only [List.length_append, List.length_cons,
          List.length_nil] at hlen ⊢; omega)
        (fun t1 ht1 t2 ht2 =>
          hwin t1 ((hset t1).mp ht1) t2 ((hset t2).mp ht2))
      simp only [runLimiter, wait_if_needed, htrim, hlt, if_false, hrec]
      simp

/-- C6: starting from an empty window with budget `b ≥ 1`, after `b`
admissions at nondecreasing times all within one minute of the first, the
`(b+1)`-th call does not return until `n0 + 60`, hence at least `60 / b`
seconds after the earliest admitted call `n0` still in the window; and on
every call the limiter's single mutex-guarded transition evicts expired
timestamps and appends the admission time. -/
theorem C6_theorem (b : Nat) (hb : 1 ≤ b) (n0 : ℚ) (mid : List ℚ) (nb : ℚ)
    (hlen : (n0 :: mid).length = b)
    (hchain : List.Chain' (fun x y => x ≤ y) ((n0 :: mid) ++ [nb]))
    (hwin : nb < n0 + 60) :
    ((wait_if_needed b (runLimiter b (n0 :: mid) []).1 nb).2 = n0 + 60
    ∧ n0 + 60 / (b : ℚ) ≤
        (wait_if_needed b (runLimiter b (n0 :: mid) []).1 nb).2)
    ∧ ∀ (rpm : Nat) (s : List ℚ) (now : ℚ),
        (wait_if_needed rpm s now).1 =
          trimTimes s (wait_if_needed rpm s now).2 ++
            [(wait_if_needed rpm s now).2] := by
  have hpair := List.chain'_iff_pairwise.mp hchain
  rw [List.pairwise_append] at hpair
  obtain ⟨hp1, _, hcross⟩ := hpair
  have hlow : ∀ t ∈ n0 :: mid, n0 ≤ t := by
    intro t ht
    rcases List.mem_cons.mp ht with rfl | ht
    · exact le_refl t
    · exact (List.pairwise_cons.mp hp1).1 t ht
  have hup : ∀ t ∈ n0 :: mid, t ≤ nb := by
    intro t ht
    exact hcross t ht nb (List.mem_singleton.mpr rfl)
  have hwin2 : ∀ t1 ∈ ([] : List ℚ) ++ n0 :: mid,
      ∀ t2 ∈ ([] : List ℚ) ++ n0 :: mid, t2 - 60 < t1 := by
    intro t1 h1 t2 h2
    simp only [List.nil_append] at h1 h2
    have hu := hup t2 h2
    have hl := hlow t1 h1
    linarith
  have hrun := runLimiter_under_budget b (n0 :: mid) []
    (by simpa using hlen.le) hwin2
  have hruns : (runLimiter b (n0 :: mid) []).1 = n0 :: mid := by
    rw [hrun]
    rfl
  have htrim : trimTimes (n0 :: mid) nb = n0 :: mid := by
    apply trimTimes_eq_self
    intro t ht
    have := hlow t ht
    linarith
  have hge : b ≤ mid.length + 1 := by
    have := hlen.ge
    simpa using this
  have hpos : 0 < n0 + 60 - nb := by linarith
  have hcall : (wait_if_needed b (n0 :: mid) nb).2 = n0 + 60 := by
    unfold wait_if_needed
    simp [htrim, hge, hpos]
  refine ⟨⟨by rw [hruns, hcall], ?_⟩, wait_if_needed_shape⟩
  rw [hruns, hcall]
  have hdiv : (60 : ℚ) / (b : ℚ) ≤ 60 :=
    div_le_self (by norm_num) (by exact_mod_cast hb)
  linarith

/-- C6 witness: budget 1, one admission at time 0, the second call entering
at time 30 is admitted only at time 60 = 0 + 60 ≥ 0 + 60 / 1. -/
theorem C6_witness :
    (wait_if_needed 1 (runLimiter 1 [(0 : ℚ)] []).1 30).2 = (0 : ℚ) + 60
    ∧ (0 : ℚ) + 60 / ((1 : Nat) : ℚ) ≤
        (wait_if_needed 1 (runLimiter 1 [(0 : ℚ)] []).1 30).2 := by
  have h := C6_theorem 1 (le_refl 1) 0 [] 30 rfl
    (by norm_num [List.chain'_cons]) (by norm_num)
  exact ⟨h.1.1, h.1.2⟩

end ColdBot
